import Mathlib

/-!
# Verification of the tunnel-agent core against its specification

Shallow embedding of the Go sources of `hydragon2m/tunnel-agent`:
the frame data model, the authenticator (`client/local_forward.go`,
`Authenticator.HandleAuthResponse`), the connector's bounded send queue and
retry loop (`client/connector.go` / `unnamed/part_004`), the stream registry
(`client/stream.go` and the `unnamed/part_003` variant), the per-stream read
adapter (`unnamed/part_003`, `Stream.Read`), the dispatcher's read-loop
decision logic, the heartbeat lifecycle, and the stream metrics counters
(`internal/metrics/metrics.go` wired in `cmd/agent/main.go`).

Modelling conventions:
* byte sequences are `List Nat`;
* Go `time.Duration` values and the float backoff arithmetic are modelled
  over `ℚ` with exact arithmetic (for the default factors 2.0 and 1.5 the
  float computation on realistic durations is exact);
* `int64` metric counters are modelled as unbounded `Int` (wraparound at
  2^63 is irrelevant to the counting claims);
* Go channels are modelled by their buffered contents plus a closed flag;
  a `select` between two ready cases takes an explicit `SelectPick`
  parameter standing for the runtime's pseudo-random choice;
* timestamps (`CreatedAt`, `time.Now()`) are dropped: no claim mentions
  them;
* external library calls (`json.Unmarshal`) become function parameters.
-/

namespace TunnelAgent

/-! ## Frame data model (tunnel-protocol v1 as used by the agent) -/

/-- Frame types used by the core: Auth, Heartbeat, Close, OpenStream, Data. -/
inductive FrameType where
  | auth
  | heartbeat
  | close
  | openStream
  | data
deriving DecidableEq, Repr

/-- Flag bit set: EndStream, Error, Ack (None = all clear). -/
structure Flags where
  endStream : Bool
  err : Bool
  ack : Bool
deriving DecidableEq, Repr

def flagNone : Flags := ⟨false, false, false⟩

def flagEndStream : Flags := ⟨true, false, false⟩

def flagError : Flags := ⟨false, true, false⟩

def flagAck : Flags := ⟨false, false, true⟩

/-- Protocol version byte `v1.Version` (value opaque to the agent). -/
def protocolVersion : Nat := 1

/-- A decoded frame: version, type, flags, 32-bit stream id, payload bytes. -/
structure Frame where
  version : Nat
  type : FrameType
  flags : Flags
  streamID : Nat
  payload : List Nat
deriving DecidableEq, Repr

/-- `Frame.IsControlFrame`: stream id 0 marks a control frame. -/
def Frame.isControlFrame (f : Frame) : Bool := f.streamID == 0

/-- `Frame.IsAck`. -/
def Frame.isAck (f : Frame) : Bool := f.flags.ack

/-- `Frame.IsEndStream`. -/
def Frame.isEndStream (f : Frame) : Bool := f.flags.endStream

/-- `Frame.IsError`. -/
def Frame.isErrorFlag (f : Frame) : Bool := f.flags.err

/-- A terminating frame for a stream: a Data frame carrying EndStream or
Error. -/
def Frame.isTerminating (f : Frame) : Bool :=
  (f.type == FrameType.data) && (f.flags.endStream || f.flags.err)

/-! ## Authenticator (`client/local_forward.go`, `Authenticator`) -/

/-- `AuthResponse` payload of the server's auth ACK (fields the handler
reads). -/
structure AuthResponse where
  success : Bool
  agentID : String
  error : String
deriving DecidableEq, Repr

/-- `Authenticator` state the response handler touches. -/
structure Authenticator where
  token : String
  agentID : String
deriving DecidableEq, Repr

/-- Result of `HandleAuthResponse`, mirroring the Go error values:
`ErrInvalidFrame`, the sentinel `ErrAuthFailed`, the error returned by
`json.Unmarshal` passed through unchanged, and the formatted
`auth failed: <msg>` error. -/
inductive AuthResult where
  | ok (a : Authenticator)
  | errInvalidFrame
  | errAuthFailed
  | errJsonUnmarshal
  | errAuthFailedMsg (msg : String)
deriving DecidableEq, Repr

/-- `Authenticator.HandleAuthResponse`. `unmarshal` stands for
`json.Unmarshal` into `AuthResponse` (`none` = parse error). -/
def handleAuthResponse (unmarshal : List Nat → Option AuthResponse)
    (a : Authenticator) (f : Frame) : AuthResult :=
  if f.type ≠ FrameType.auth then .errInvalidFrame
  else if ¬ f.isControlFrame then .errInvalidFrame
  else if ¬ f.isAck then .errAuthFailed
  else
    match unmarshal f.payload with
    | none => .errJsonUnmarshal
    | some resp =>
      if ¬ resp.success then .errAuthFailedMsg resp.error
      else if resp.agentID ≠ "" then .ok { a with agentID := resp.agentID }
      else .ok a

/-! ## Connector send queue (`Connector.SendFrame`, `unnamed/part_004`) -/

/-- The connector state `SendFrame` reads: the `connected` flag and the
buffered contents of the outbound `sendCh` channel with its capacity. -/
structure ConnSendState where
  connected : Bool
  sendCh : List Frame
  sendChCap : Nat
deriving DecidableEq, Repr

/-- `NewConnector` allocates `sendCh` with buffer 100 and starts
disconnected. -/
def newConnectorSendState : ConnSendState := ⟨false, [], 100⟩

/-- Result of `SendFrame`: `nil`, `ErrNotConnected`, or the
"send queue full" error. -/
inductive SendResult where
  | ok
  | errNotConnected
  | sendQueueFull
deriving DecidableEq, Repr

/-- `Connector.SendFrame`: check `connected`, then non-blocking channel send
(`select`/`default`): succeeds iff the buffer has room. -/
def sendFrame (c : ConnSendState) (f : Frame) : SendResult × ConnSendState :=
  if ¬ c.connected then (.errNotConnected, c)
  else if c.sendCh.length < c.sendChCap then
    (.ok, { c with sendCh := c.sendCh ++ [f] })
  else (.sendQueueFull, c)

/-! ## Connector retry loop (`Connector.connectWithRetry`, `unnamed/part_004`)

The loop is driven by a script of dial outcomes (`true` = dial succeeded).
Cancellation is not scripted: the script covers executions in which the
supervisor's context stays live.  Durations are exact rationals. -/

/-- Retry configuration; `NewConnector` defaults are
`maxRetries = -1`, `retryInterval = 1s`, `backoffFactor = 2.0`,
`maxBackoff = 60s` (durations in seconds). -/
structure RetryConfig where
  maxRetries : Int
  retryInterval : ℚ
  backoffFactor : ℚ
  maxBackoff : ℚ

def defaultRetryConfig : RetryConfig := ⟨-1, 1, 2, 60⟩

/-- Outcome of running `connectWithRetry` against a finite dial script:
connected, `max retries exceeded` error, or still looping when the script
ran out. -/
inductive RetryOutcome where
  | connected
  | maxRetriesExceeded
  | pending
deriving DecidableEq, Repr

/-- `Connector.connectWithRetry`, state-passing form.  Arguments after the
script mirror the loop's locals: `backoff`, `retries`,
`consecutiveErrors`.  Returns the outcome and the sequence of waited
backoff durations (one entry per failed attempt that entered the
`time.After(backoff)` wait). -/
def connectWithRetry (cfg : RetryConfig) :
    List Bool → ℚ → Nat → Nat → RetryOutcome × List ℚ
  | [], _, _, _ => (.pending, [])
  | true :: _, _, _, _ => (.connected, [])
  | false :: rest, backoff, retries, consecutiveErrors =>
    let ce1 := consecutiveErrors + 1
    let b1 :=
      if 5 ≤ ce1 then
        min (backoff * cfg.backoffFactor * (3 / 2)) (2 * cfg.maxBackoff)
      else backoff
    if 0 < cfg.maxRetries ∧ cfg.maxRetries ≤ (retries : Int) then
      (.maxRetriesExceeded, [])
    else
      let b2 := min (b1 * cfg.backoffFactor) cfg.maxBackoff
      let r := connectWithRetry cfg rest b2 (retries + 1) ce1
      (r.1, b1 :: r.2)

/-- `Connector.Connect` enters the retry loop with
`backoff = retryInterval`, `retries = 0`, `consecutiveErrors = 0`. -/
def connect (cfg : RetryConfig) (dials : List Bool) : RetryOutcome × List ℚ :=
  connectWithRetry cfg dials cfg.retryInterval 0 0

/-- The aggressive pre-wait bump: on failure number `i` (0-based) the code
has `consecutiveErrors = i + 1`; from the fifth consecutive failure on it
multiplies the backoff by `backoffFactor * 1.5` capped at
`2 * maxBackoff`. -/
def retryBump (cfg : RetryConfig) (i : Nat) (b : ℚ) : ℚ :=
  if 5 ≤ i + 1 then min (b * cfg.backoffFactor * (3 / 2)) (2 * cfg.maxBackoff)
  else b

/-- Spec-side backoff recurrence, written from the claim's words: the pair
`(backoff entering failure i, wait after failure i)` for an unbroken run of
failures.  The backoff starts at `retryInterval`, is multiplied by
`backoffFactor` and capped at `maxBackoff` after each failed attempt, and
from the fifth consecutive failure the additional bump of `retryBump`
is applied before waiting. -/
def specBW (cfg : RetryConfig) : Nat → ℚ × ℚ
  | 0 => (cfg.retryInterval, retryBump cfg 0 cfg.retryInterval)
  | i + 1 =>
    let p := specBW cfg i
    let b := min (p.2 * cfg.backoffFactor) cfg.maxBackoff
    (b, retryBump cfg (i + 1) b)

/-- The wait duration after the `i`-th consecutive failure (0-based). -/
def specWait (cfg : RetryConfig) (i : Nat) : ℚ := (specBW cfg i).2

/-! ## Stream and stream registry (`client/stream.go`, `unnamed/part_003`) -/

/-- Stream states. -/
inductive StreamStateE where
  | sInit
  | sOpen
  | sData
  | sClosed
  | sError
deriving DecidableEq, Repr

/-- A `Stream`'s observable state: id, state enum, the buffered contents of
the inbound `dataOut` channel with its capacity and closed flag, the
one-shot `closeCh` flag, and the `readBuf` cursor of the read adapter. -/
structure StreamModel where
  id : Nat
  state : StreamStateE
  queue : List (List Nat)
  queueCap : Nat
  dataOutClosed : Bool
  closeChClosed : Bool
  readBuf : List Nat
deriving DecidableEq, Repr

/-- `CreateStream`'s fresh stream in `client/stream.go`
(`dataOut` buffered at 10). -/
def newStream (id : Nat) : StreamModel :=
  ⟨id, .sInit, [], 10, false, false, []⟩

/-- `CreateStream`'s fresh stream in the `unnamed/part_003` variant
(`dataOut` buffered at 100). -/
def newStreamP3 (id : Nat) : StreamModel :=
  ⟨id, .sInit, [], 100, false, false, []⟩

/-- Go `delete(sm.streams, id)`. -/
def removeKey (id : Nat) : List (Nat × StreamModel) → List (Nat × StreamModel)
  | [] => []
  | p :: t => if p.1 = id then removeKey id t else p :: removeKey id t

/-- Go map lookup `sm.streams[streamID]`. -/
def findStream : List (Nat × StreamModel) → Nat → Option StreamModel
  | [], _ => none
  | (k, v) :: t, id => if k = id then some v else findStream t id

/-- Registry state: the `streams` map as an association list plus the logs
of `onStreamCreated` / `onStreamClosed` callback invocations. -/
structure SMState where
  streams : List (Nat × StreamModel)
  createdLog : List Nat
  closedLog : List Nat
deriving DecidableEq, Repr

def emptySM : SMState := ⟨[], [], []⟩

inductive CreateOutcome where
  | ok (st : StreamModel)
  | errStreamAlreadyExists
deriving DecidableEq, Repr

inductive CloseOutcome where
  | ok (st : StreamModel)
  | errStreamNotFound
deriving DecidableEq, Repr

/-- `StreamManager.CreateStream` (`client/stream.go`): reject an existing
id, otherwise insert a fresh stream and fire `onStreamCreated`. -/
def createStream (s : SMState) (id : Nat) : CreateOutcome × SMState :=
  match findStream s.streams id with
  | some _ => (.errStreamAlreadyExists, s)
  | none =>
    (.ok (newStream id),
      { s with
        streams := (id, newStream id) :: s.streams
        createdLog := s.createdLog ++ [id] })

/-- `StreamManager.CloseStream` (`client/stream.go`): `ErrStreamNotFound`
for an absent id; otherwise set the state to Closed, close `closeCh`
(NOT `dataOut` — see the source comment), delete the id, fire
`onStreamClosed`.  The `ok` result carries the mutated stream object that
holders of the shared reference keep seeing. -/
def closeStream (s : SMState) (id : Nat) : CloseOutcome × SMState :=
  match findStream s.streams id with
  | none => (.errStreamNotFound, s)
  | some st =>
    (.ok { st with state := .sClosed, closeChClosed := true },
      { s with
        streams := removeKey id s.streams
        closedLog := s.closedLog ++ [id] })

/-- `StreamManager.CloseStream` in the `unnamed/part_003` variant: same,
but it additionally closes the `dataOut` channel
("Close dataOut to signal anyone reading from it"). -/
def closeStreamP3 (s : SMState) (id : Nat) : CloseOutcome × SMState :=
  match findStream s.streams id with
  | none => (.errStreamNotFound, s)
  | some st =>
    (.ok { st with state := .sClosed, closeChClosed := true,
                   dataOutClosed := true },
      { s with
        streams := removeKey id s.streams
        closedLog := s.closedLog ++ [id] })

/-- Registry operations for reachability of registry states. -/
inductive RegOp where
  | createOp (id : Nat)
  | closeOp (id : Nat)

def runRegOp (s : SMState) : RegOp → SMState
  | .createOp id => (createStream s id).2
  | .closeOp id => (closeStream s id).2

def runRegOps (ops : List RegOp) : SMState := ops.foldl runRegOp emptySM

/-- The registry key set has no duplicates ("at most one Stream per live
id"). -/
def keysNodup (s : SMState) : Prop := (s.streams.map Prod.fst).Nodup

/-! ## Read adapter and frame delivery (`Stream.Read` in `unnamed/part_003`,
the `FrameData` branch of `handleStreamFrame` in `cmd/agent/main.go`) -/

/-- Which case a Go `select` commits to when more than one is ready
(the runtime's pseudo-random pick). -/
inductive SelectPick where
  | chanCase
  | closeCase
deriving DecidableEq, Repr

inductive ReadOutcome where
  | bytes (bs : List Nat)
  | eof
  | blocked
deriving DecidableEq, Repr

/-- The receive arm of `Stream.Read`'s select: dequeue a chunk (copying at
most `plen` bytes into the caller's buffer, retaining the tail in
`readBuf`), or observe the closed, drained channel and return EOF. -/
def streamReadRecv (st : StreamModel) (plen : Nat) :
    ReadOutcome × StreamModel :=
  match st.queue with
  | d :: rest =>
    let n := min plen d.length
    (.bytes (d.take n), { st with queue := rest, readBuf := d.drop n })
  | [] => (.eof, st)

/-- `Stream.Read` (`unnamed/part_003`): serve `readBuf` first; otherwise
select between receiving from `dataOut` and the fired `closeCh`.  A
receive is ready iff the buffer is non-empty or the channel is closed;
the close case is ready iff `closeCh` was closed.  With no case ready the
read blocks. -/
def streamRead (st : StreamModel) (plen : Nat) (pick : SelectPick) :
    ReadOutcome × StreamModel :=
  if st.readBuf.length ≠ 0 then
    let n := min plen st.readBuf.length
    (.bytes (st.readBuf.take n), { st with readBuf := st.readBuf.drop n })
  else
    let recvReady := ¬ st.queue.isEmpty ∨ st.dataOutClosed
    let closeReady := st.closeChClosed
    if recvReady ∧ closeReady then
      match pick with
      | .chanCase => streamReadRecv st plen
      | .closeCase => (.eof, st)
    else if recvReady then streamReadRecv st plen
    else if closeReady then (.eof, st)
    else (.blocked, st)

/-- Repeatedly call `streamRead` (always resolving a double-ready select to
the receive arm), concatenating the returned bytes, until EOF or block or
the fuel runs out. -/
def drainReads (plen : Nat) : Nat → StreamModel → List Nat
  | 0, _ => []
  | fuel + 1, st =>
    match streamRead st plen .chanCase with
    | (.bytes bs, st1) => bs ++ drainReads plen fuel st1
    | _ => []

inductive DeliverOutcome where
  | delivered
  | errStreamNotFound
  | panicked
  | blocked
deriving DecidableEq, Repr

/-- The `FrameData` delivery in `handleStreamFrame`
(`cmd/agent/main.go`):

`select { case stream.DataOut() <- frame.Payload: ; case <-stream.CloseCh(): return ErrStreamNotFound }`

In Go, a send on a closed channel counts as ready and panics when the
select commits to it; a send on an open channel is ready iff the buffer
has room. -/
def deliverToStream (st : StreamModel) (payload : List Nat)
    (pick : SelectPick) : DeliverOutcome × StreamModel :=
  let sendCommit : DeliverOutcome × StreamModel :=
    if st.dataOutClosed then (.panicked, st)
    else (.delivered, { st with queue := st.queue ++ [payload] })
  let sendReady := st.dataOutClosed ∨ st.queue.length < st.queueCap
  let closeReady := st.closeChClosed
  if sendReady ∧ closeReady then
    match pick with
    | .chanCase => sendCommit
    | .closeCase => (.errStreamNotFound, st)
  else if sendReady then sendCommit
  else if closeReady then (.errStreamNotFound, st)
  else (.blocked, st)

/-! ## OpenStream handling (`handleStreamFrame` in `cmd/agent/main.go`) -/

/-- Result of `forwarder.ForwardRequest`: response bytes, or an error whose
text (as bytes) becomes the error frame's payload. -/
inductive ForwardOutcome where
  | ok (responseData : List Nat)
  | err (msg : List Nat)
deriving DecidableEq, Repr

/-- The `FrameOpenStream` branch of `handleStreamFrame` together with the
completion of its forwarder goroutine: create the stream, then on
forwarding failure send one `Data|Error` frame with the error text and
close the stream; on success send the response as a `Data` frame followed
by one `Data|EndStream` frame with empty payload, then close the stream.
Returns the frames handed to `Connector.SendFrame` and the updated
registry. -/
def handleOpenStream (s : SMState) (id : Nat) (fw : ForwardOutcome) :
    List Frame × SMState :=
  match createStream s id with
  | (.errStreamAlreadyExists, s1) => ([], s1)
  | (.ok _, s1) =>
    match fw with
    | .err msg =>
      ([⟨protocolVersion, .data, flagError, id, msg⟩],
        (closeStream s1 id).2)
    | .ok responseData =>
      ([⟨protocolVersion, .data, flagNone, id, responseData⟩,
        ⟨protocolVersion, .data, flagEndStream, id, []⟩],
        (closeStream s1 id).2)

/-! ## Dispatcher read loop (`Dispatcher.readLoop`) -/

/-- Cause of a decode error as the Go runtime produced it: the `io.EOF`
sentinel, a genuine read-deadline timeout, or anything else. -/
inductive ErrCause where
  | eofSentinel
  | timeoutCause
  | other
deriving DecidableEq, Repr

/-- A Go error as the read loop sees it: its cause and its
`err.Error()` message text. -/
structure GoError where
  cause : ErrCause
  msg : String
deriving DecidableEq, Repr

def goToLower (s : String) : String := String.mk (s.data.map Char.toLower)

/-- Does `s` start with `pat`? -/
def leadsWith : List Char → List Char → Bool
  | [], _ => true
  | _ :: _, [] => false
  | a :: pr, b :: sr => a == b && leadsWith pr sr

/-- Substring containment (Go `strings.Contains`). -/
def containsSub : List Char → List Char → Bool
  | [], pat => pat.isEmpty
  | c :: t, pat => leadsWith pat (c :: t) || containsSub t pat

/-- The dispatcher's helper
`contains(s, substr) = strings.Contains(strings.ToLower(s), strings.ToLower(substr))`. -/
def goContains (s sub : String) : Bool :=
  containsSub (goToLower s).data (goToLower sub).data

/-- The read loop's timeout test:
`contains(errStr, "timeout") || contains(errStr, "i/o timeout")` —
a pure message-text check. -/
def isTimeoutMsg (msg : String) : Bool :=
  goContains msg "timeout" || goContains msg "i/o timeout"

/-- One read-loop iteration's input: a decoded frame (with whether the
routed handler returned an error) or a decode error. -/
inductive ReadEvent where
  | decoded (f : Frame) (handlerErr : Bool)
  | decodeErr (e : GoError)

inductive LoopAction where
  | continueLoop
  | exitLoop
deriving DecidableEq, Repr

/-- Per-iteration deltas of the frame counters. -/
structure LoopCounters where
  framesReceived : Nat
  framesError : Nat
deriving DecidableEq, Repr

/-- One iteration of `Dispatcher.readLoop` after a frame decode attempt:
`err == io.EOF` exits cleanly; otherwise an error whose message contains
"timeout" continues; any other error counts a frame error and exits; a
decoded frame counts as received and is routed, and a handler error is
counted but the loop continues. -/
def readLoopIter : ReadEvent → LoopAction × LoopCounters
  | .decoded _ handlerErr =>
    (.continueLoop, ⟨1, if handlerErr then 1 else 0⟩)
  | .decodeErr e =>
    if e.cause = .eofSentinel then (.exitLoop, ⟨0, 0⟩)
    else if isTimeoutMsg e.msg then (.continueLoop, ⟨0, 0⟩)
    else (.exitLoop, ⟨0, 1⟩)

/-! ## Dispatcher and heartbeat lifecycle (`Dispatcher`, `Heartbeat`) -/

/-- Dispatcher lifecycle state: the once-created cancellation context's
cancelled flag and the `running` flag.  `NewDispatcher` creates the
context exactly once; nothing ever recreates it. -/
structure DispState where
  ctxCancelled : Bool
  running : Bool
deriving DecidableEq, Repr

def newDispatcher : DispState := ⟨false, false⟩

inductive StartResult where
  | ok
  | errAlreadyRunning
deriving DecidableEq, Repr

/-- `Dispatcher.Start`: fail with `ErrAlreadyRunning` if running, else mark
running and spawn `readLoop`. -/
def dispStart (d : DispState) : StartResult × DispState :=
  if d.running then (.errAlreadyRunning, d)
  else (.ok, { d with running := true })

/-- `Dispatcher.Stop`: cancel the context and clear `running`. -/
def dispStop (d : DispState) : DispState :=
  { d with ctxCancelled := true, running := false }

/-- The frames a `readLoop` run dispatches to handlers, given the scripted
decode events: each iteration first checks `ctx.Done()`. -/
def readLoopFrames : List ReadEvent → List Frame
  | [] => []
  | ev :: rest =>
    match readLoopIter ev with
    | (.continueLoop, _) =>
      match ev with
      | .decoded f _ => f :: readLoopFrames rest
      | .decodeErr _ => readLoopFrames rest
    | (.exitLoop, _) => []

/-- A spawned `readLoop` under dispatcher state `d`: with the context
already cancelled the first `select` on `ctx.Done()` returns before any
frame is read. -/
def readLoopRun (d : DispState) (evs : List ReadEvent) : List Frame :=
  if d.ctxCancelled then [] else readLoopFrames evs

/-- Heartbeat lifecycle state (`client/local_forward.go`, `Heartbeat`):
the once-created cancellation context and the `running` flag. -/
structure HeartbeatState where
  ctxCancelled : Bool
  running : Bool
deriving DecidableEq, Repr

def newHeartbeat : HeartbeatState := ⟨false, false⟩

/-- `Heartbeat.Start`: no-op when running, else mark running and spawn the
loop.  The returned `Bool` records whether a loop was spawned. -/
def hbStart (h : HeartbeatState) : HeartbeatState × Bool :=
  if h.running then (h, false) else ({ h with running := true }, true)

/-- `Heartbeat.Stop`: cancel and clear `running`. -/
def hbStop (h : HeartbeatState) : HeartbeatState :=
  { h with ctxCancelled := true, running := false }

/-- The control heartbeat frame the loop sends on each tick while
connected. -/
def heartbeatFrame : Frame := ⟨protocolVersion, .heartbeat, flagNone, 0, []⟩

/-- A spawned `heartbeatLoop` under state `h`, given the connectedness at
each ticker tick: with the context already cancelled it returns before
any tick fires. -/
def heartbeatRun (h : HeartbeatState) (ticks : List Bool) : List Frame :=
  if h.ctxCancelled then []
  else ticks.filterMap (fun conn => if conn then some heartbeatFrame else none)

/-! ## Stream metrics counters (`internal/metrics/metrics.go` as wired in
`cmd/agent/main.go`) -/

/-- Stream-related counter events the agent emits: the `onStreamCreated`
callback (`StreamsTotal++`, `StreamsActive++`), the `onStreamClosed`
callback (`StreamsActive--`, `StreamsCompleted++`), and the forwarding
failure path in `handleStreamFrame` (`StreamsFailed++`, which is then
followed by `CloseStream` and hence a `closedCb`). -/
inductive CounterEvent where
  | createdCb
  | closedCb
  | forwardFailed
deriving DecidableEq, Repr

structure StreamCounters where
  total : Int
  active : Int
  completed : Int
  failed : Int
deriving DecidableEq, Repr

def zeroCounters : StreamCounters := ⟨0, 0, 0, 0⟩

def applyCounterEvent (c : StreamCounters) : CounterEvent → StreamCounters
  | .createdCb => { c with total := c.total + 1, active := c.active + 1 }
  | .closedCb => { c with active := c.active - 1, completed := c.completed + 1 }
  | .forwardFailed => { c with failed := c.failed + 1 }

def runCounterEvents (evs : List CounterEvent) : StreamCounters :=
  evs.foldl applyCounterEvent zeroCounters

/-- The exact counter-event trace of one stream whose forwarding fails
(`handleStreamFrame`: `IncrementStreamsFailed` then `CloseStream`). -/
def failedStreamTrace : List CounterEvent :=
  [.createdCb, .forwardFailed, .closedCb]

/-! ## Concrete objects used by counterexamples and witnesses -/

/-- `CreateStream` in the `unnamed/part_003` registry variant. -/
def createStreamP3 (s : SMState) (id : Nat) : CreateOutcome × SMState :=
  match findStream s.streams id with
  | some _ => (.errStreamAlreadyExists, s)
  | none =>
    (.ok (newStreamP3 id),
      { s with
        streams := (id, newStreamP3 id) :: s.streams
        createdLog := s.createdLog ++ [id] })

/-- The stream object of id 7 as the `unnamed/part_003` `CloseStream`
leaves it: state Closed, `closeCh` closed, `dataOut` closed. -/
def closedStream7 : StreamModel :=
  { newStreamP3 7 with
    state := .sClosed, closeChClosed := true, dataOutClosed := true }

def authUnderTest : Authenticator := ⟨"secret-token", "agent-1"⟩

/-- A control `FrameAuth` with the Ack flag and a payload the JSON decoder
rejects. -/
def ackAuthFrame : Frame := ⟨protocolVersion, .auth, flagAck, 0, [123]⟩

/-- `json.Unmarshal` failing on the payload. -/
def unmarshalFail : List Nat → Option AuthResponse := fun _ => none

/-- A decode error that is neither EOF nor a timeout by cause, but whose
message text happens to contain "timeout". -/
def spoofTimeoutErr : GoError :=
  ⟨.other, "read tcp 10.0.0.5:443: connection reset during Timeout setup"⟩

/-- A genuine read-deadline timeout whose message does not contain the
substring "timeout". -/
def realTimeoutErr : GoError := ⟨.timeoutCause, "deadline exceeded"⟩

/-- `SetMaxRetries(1)` on the default connector configuration. -/
def cexRetryCfg : RetryConfig := ⟨1, 1, 2, 60⟩

/-! ## Theorems -/

/-- **C4.** For every frame, `SendFrame` fails with `NotConnected` when no
transport is active; when a transport is active and the bounded outbound
queue (capacity 100) is full it returns the send-queue-full error without
blocking (the state is untouched and no wait happens); otherwise it
enqueues the frame at the tail and returns Ok. -/
theorem sendFrame_cases (c : ConnSendState) (f : Frame)
    (hcap : c.sendChCap = 100) :
    (c.connected = false → sendFrame c f = (.errNotConnected, c)) ∧
    (c.connected = true → c.sendCh.length = 100 →
      sendFrame c f = (.sendQueueFull, c)) ∧
    (c.connected = true → c.sendCh.length < 100 →
      sendFrame c f = (.ok, { c with sendCh := c.sendCh ++ [f] })) := by
  refine ⟨fun h => by simp [sendFrame, h],
    fun h hl => by simp [sendFrame, h, hcap, hl],
    fun h hl => by simp [sendFrame, h, hcap, hl]⟩

/-- Witness for `sendFrame_cases` on a freshly connected connector. -/
theorem sendFrame_cases_witness :
    sendFrame { newConnectorSendState with connected := true } heartbeatFrame
      = (.ok, { newConnectorSendState with
                connected := true, sendCh := [heartbeatFrame] }) := by
  have h := sendFrame_cases
    { newConnectorSendState with connected := true } heartbeatFrame rfl
  exact h.2.2 rfl (by decide)

/-- **C10.** After `Stop()` on the Dispatcher (resp. the Heartbeat), a
later `Start()` on the same instance reports success and marks it running,
but the spawned loop reads and dispatches no frame (resp. sends no
heartbeat frame) whatever input arrives, because the cancellation context
was created once at construction and `Stop` cancelled it for good. -/
theorem start_after_stop_inert (d : DispState) (h : HeartbeatState)
    (evs : List ReadEvent) (ticks : List Bool) :
    (dispStart (dispStop d)).1 = .ok ∧
    (dispStart (dispStop d)).2.running = true ∧
    readLoopRun (dispStart (dispStop d)).2 evs = [] ∧
    (hbStart (hbStop h)).2 = true ∧
    (hbStart (hbStop h)).1.running = true ∧
    heartbeatRun (hbStart (hbStop h)).1 ticks = [] := by
  simp [dispStart, dispStop, readLoopRun, hbStart, hbStop, heartbeatRun]

/-- **C9, counterexample.** After one stream whose forwarding failed — the
exact event trace `handleStreamFrame` produces — the system is quiescent
(`streams_active = 0`), yet
`streams_total − streams_completed − streams_failed = −1`, because the
failure path increments `StreamsFailed` and then `CloseStream` fires
`onStreamClosed`, which also increments `StreamsCompleted`.  So the claimed
identity fails. -/
theorem streamCounters_identity_cex :
    (runCounterEvents failedStreamTrace).active = 0 ∧
    (runCounterEvents failedStreamTrace).total
      - (runCounterEvents failedStreamTrace).completed
      - (runCounterEvents failedStreamTrace).failed = -1 ∧
    (runCounterEvents failedStreamTrace).active ≠
      (runCounterEvents failedStreamTrace).total
        - (runCounterEvents failedStreamTrace).completed
        - (runCounterEvents failedStreamTrace).failed := by
  decide

/-- Invariant propagation for the stream counters: `active = total −
completed` holds throughout any event sequence. -/
theorem counters_active_eq (evs : List CounterEvent) (c : StreamCounters)
    (h : c.active = c.total - c.completed) :
    (evs.foldl applyCounterEvent c).active =
      (evs.foldl applyCounterEvent c).total
        - (evs.foldl applyCounterEvent c).completed := by
  induction evs generalizing c with
  | nil => exact h
  | cons e rest ih =>
    cases e <;> (apply ih; simp [applyCounterEvent]; omega)

/-- **C9, amended.** `streams_total`, `streams_completed` and
`streams_failed` are monotonic non-decreasing, and at every point (in
particular every quiescent one)
`streams_active = streams_total − streams_completed`: failed streams are
counted in `streams_completed` too, since the failure path still runs
`CloseStream`, while `streams_failed` counts forwarding failures
separately. -/
theorem streamCounters_amended (c : StreamCounters) (e : CounterEvent)
    (evs : List CounterEvent) :
    c.total ≤ (applyCounterEvent c e).total ∧
    c.completed ≤ (applyCounterEvent c e).completed ∧
    c.failed ≤ (applyCounterEvent c e).failed ∧
    (runCounterEvents evs).active =
      (runCounterEvents evs).total - (runCounterEvents evs).completed := by
  refine ⟨?_, ?_, ?_, counters_active_eq evs zeroCounters (by decide)⟩ <;>
    cases e <;> simp [applyCounterEvent]

/-- **C3, counterexample.** A control `FrameAuth` with the Ack flag whose
payload `json.Unmarshal` rejects makes `HandleAuthResponse` return the
unmarshal error itself — not `ErrInvalidFrame` as claimed. -/
theorem authResponse_unparseable_cex :
    handleAuthResponse unmarshalFail authUnderTest ackAuthFrame
      = .errJsonUnmarshal ∧
    (AuthResult.errJsonUnmarshal ≠ AuthResult.errInvalidFrame) := by
  exact ⟨rfl, by decide⟩

/-- **C6 (code bug).** The `unnamed/part_003` `CloseStream` closes the
stream's `dataOut` channel; the `FrameData` delivery in
`cmd/agent/main.go` is a `select` that sends on that channel.  When the
close completes between the registry lookup and the select, both select
cases are ready; if the runtime commits to the send case, the send on the
closed channel panics.  (Reads on the closed stream do return EOF, as the
claim also states.)  This contradicts the repo's own status note
"don't close dataOut (avoid panic)" and the spec's requirement that
senders never observe a closed channel. -/
theorem closeStream_delivery_race :
    (closeStreamP3 (createStreamP3 emptySM 7).2 7).1 = .ok closedStream7 ∧
    (deliverToStream closedStream7 [104, 105] .chanCase).1 = .panicked ∧
    (deliverToStream closedStream7 [104, 105] .closeCase).1
      = .errStreamNotFound ∧
    (streamRead closedStream7 8 .chanCase).1 = .eof ∧
    (streamRead closedStream7 8 .closeCase).1 = .eof := by
  decide

/-- **C8, counterexample.** The read loop classifies timeouts by message
text, not by cause: a non-timeout error whose message merely contains
"timeout" makes the loop continue without counting an error, and a genuine
timeout whose message lacks the substring exits the loop and counts an
error — both opposite to the claim's cause-based reading. -/
theorem readLoop_timeout_by_message_cex :
    readLoopIter (.decodeErr spoofTimeoutErr) = (.continueLoop, ⟨0, 0⟩) ∧
    spoofTimeoutErr.cause ≠ .timeoutCause ∧
    spoofTimeoutErr.cause ≠ .eofSentinel ∧
    readLoopIter (.decodeErr realTimeoutErr) = (.exitLoop, ⟨0, 1⟩) ∧
    realTimeoutErr.cause = .timeoutCause := by
  refine ⟨?_, by decide, by decide, ?_, by decide⟩ <;> decide

/-- **C8, amended.** In the dispatcher's read loop: a decode error whose
message text contains "timeout" (case-insensitive) — the loop's actual
recognition mechanism — causes the loop to continue without touching the
error counter; the `io.EOF` sentinel exits the loop cleanly; any other
decode or I/O error increments the error counter and exits the loop so the
supervisor reconnects; a decoded frame counts as received and handler
errors are counted but do not terminate the loop. -/
theorem readLoop_iteration_cases (f : Frame) (handlerErr : Bool)
    (e : GoError) :
    readLoopIter (.decoded f handlerErr)
      = (.continueLoop, ⟨1, if handlerErr then 1 else 0⟩) ∧
    (e.cause = .eofSentinel →
      readLoopIter (.decodeErr e) = (.exitLoop, ⟨0, 0⟩)) ∧
    (e.cause ≠ .eofSentinel → isTimeoutMsg e.msg = true →
      readLoopIter (.decodeErr e) = (.continueLoop, ⟨0, 0⟩)) ∧
    (e.cause ≠ .eofSentinel → isTimeoutMsg e.msg = false →
      readLoopIter (.decodeErr e) = (.exitLoop, ⟨0, 1⟩)) := by
  refine ⟨rfl, fun h => by simp [readLoopIter, h],
    fun h ht => by simp [readLoopIter, h, ht],
    fun h ht => by simp [readLoopIter, h, ht]⟩

/-- Witness for `readLoop_iteration_cases`: a handler error on a decoded
heartbeat frame is counted but the loop continues, and a plain I/O error
exits with an error count. -/
theorem readLoop_iteration_cases_witness :
    readLoopIter (.decoded heartbeatFrame true) = (.continueLoop, ⟨1, 1⟩) ∧
    readLoopIter (.decodeErr ⟨.other, "connection reset by peer"⟩)
      = (.exitLoop, ⟨0, 1⟩) := by
  have h := readLoop_iteration_cases heartbeatFrame true
    ⟨.other, "connection reset by peer"⟩
  exact ⟨h.1, h.2.2.2 (by decide) (by decide)⟩

/-- **C3, amended.** `HandleAuthResponse` returns Ok iff the frame is a
control `FrameAuth` with the Ack flag and a JSON payload with
`success == true`; a frame that is not `FrameAuth` or not control yields
`InvalidFrame`; a missing Ack flag yields the `AuthFailed` sentinel; an
unparseable payload yields the JSON decode error passed through unchanged
(not `InvalidFrame`); `success == false` yields an auth-failed error
carrying the response's error message; and on success a non-empty
`agent_id` in the response replaces the stored agent id. -/
theorem handleAuthResponse_cases (unm : List Nat → Option AuthResponse)
    (a : Authenticator) (f : Frame) :
    ((∃ a2, handleAuthResponse unm a f = .ok a2) ↔
      (f.type = .auth ∧ f.streamID = 0 ∧ f.flags.ack = true ∧
        ∃ r, unm f.payload = some r ∧ r.success = true)) ∧
    (f.type ≠ .auth → handleAuthResponse unm a f = .errInvalidFrame) ∧
    (f.type = .auth → f.streamID ≠ 0 →
      handleAuthResponse unm a f = .errInvalidFrame) ∧
    (f.type = .auth → f.streamID = 0 → f.flags.ack = false →
      handleAuthResponse unm a f = .errAuthFailed) ∧
    (f.type = .auth → f.streamID = 0 → f.flags.ack = true →
      unm f.payload = none →
      handleAuthResponse unm a f = .errJsonUnmarshal) ∧
    (∀ r, f.type = .auth → f.streamID = 0 → f.flags.ack = true →
      unm f.payload = some r → r.success = false →
      handleAuthResponse unm a f = .errAuthFailedMsg r.error) ∧
    (∀ r, f.type = .auth → f.streamID = 0 → f.flags.ack = true →
      unm f.payload = some r → r.success = true →
      handleAuthResponse unm a f =
        .ok (if r.agentID ≠ "" then { a with agentID := r.agentID }
             else a)) := by
  unfold handleAuthResponse Frame.isControlFrame Frame.isAck
  refine ⟨?_, ?_, ?_, ?_, ?_, ?_, ?_⟩
  · constructor
    · intro ⟨a2, ha⟩
      by_cases h1 : f.type = FrameType.auth
      · by_cases h2 : f.streamID = 0
        · by_cases h3 : f.flags.ack = true
          · refine ⟨h1, h2, h3, ?_⟩
            simp [h1, h2, h3] at ha
            cases hu : unm f.payload with
            | none => rw [hu] at ha; exact absurd ha (by simp)
            | some r =>
              rw [hu] at ha
              by_cases hs : r.success = true
              · exact ⟨r, rfl, hs⟩
              · simp [hs] at ha
          · simp [h1, h2, Bool.not_eq_true _ ▸ h3,
              show f.flags.ack = false from by
                revert h3; cases f.flags.ack <;> simp] at ha
        · simp [h1, h2] at ha
      · simp [h1] at ha
    · intro ⟨h1, h2, h3, r, hu, hs⟩
      simp [h1, h2, h3, hu, hs]
      by_cases hid : r.agentID = ""
      · exact ⟨a, by simp [hid]⟩
      · exact ⟨{ a with agentID := r.agentID }, by simp [hid]⟩
  · intro h; simp [h]
  · intro h1 h2; simp [h1, h2]
  · intro h1 h2 h3; simp [h1, h2, h3]
  · intro h1 h2 h3 h4; simp [h1, h2, h3, h4]
  · intro r h1 h2 h3 h4 h5; simp [h1, h2, h3, h4, h5]
  · intro r h1 h2 h3 h4 h5
    simp only [h1, h2, h3, h4, h5]
    by_cases hid : r.agentID = "" <;> simp [hid]

/-- Witness for `handleAuthResponse_cases`: a successful ACK carrying a
fresh agent id updates the stored id. -/
theorem handleAuthResponse_cases_witness :
    handleAuthResponse
      (fun _ => some ⟨true, "agent-9", ""⟩) authUnderTest ackAuthFrame
      = .ok ⟨"secret-token", "agent-9"⟩ := by
  have h := handleAuthResponse_cases
    (fun _ => some ⟨true, "agent-9", ""⟩) authUnderTest ackAuthFrame
  have h2 := h.2.2.2.2.2.2 ⟨true, "agent-9", ""⟩ rfl rfl rfl rfl rfl
  simpa using h2

/-! ### Registry helper lemmas -/

theorem findStream_removeKey (id : Nat) (l : List (Nat × StreamModel)) :
    findStream (removeKey id l) id = none := by
  induction l with
  | nil => rfl
  | cons p t ih =>
    obtain ⟨k, v⟩ := p
    by_cases h : k = id
    · simpa [removeKey, h] using ih
    · simpa [removeKey, findStream, h] using ih

theorem findStream_removeKey_ne {id id2 : Nat} (h : id ≠ id2)
    (l : List (Nat × StreamModel)) :
    findStream (removeKey id l) id2 = findStream l id2 := by
  induction l with
  | nil => rfl
  | cons p t ih =>
    obtain ⟨k, v⟩ := p
    by_cases hk : k = id
    · subst hk
      simpa [removeKey, findStream, h] using ih
    · by_cases hk2 : k = id2
      · subst hk2
        simp [removeKey, findStream, hk, Ne.symm h]
      · simpa [removeKey, findStream, hk, hk2] using ih

theorem removeKey_keys_sublist (id : Nat) (l : List (Nat × StreamModel)) :
    ((removeKey id l).map Prod.fst).Sublist (l.map Prod.fst) := by
  induction l with
  | nil => simp [removeKey]
  | cons p t ih =>
    by_cases h : p.1 = id
    · simp only [removeKey, if_pos h, List.map_cons]
      exact ih.cons _
    · simp only [removeKey, if_neg h, List.map_cons]
      exact ih.cons₂ _

theorem findStream_none_not_mem {l : List (Nat × StreamModel)} {id : Nat}
    (h : findStream l id = none) : id ∉ l.map Prod.fst := by
  induction l with
  | nil => simp
  | cons p t ih =>
    obtain ⟨k, v⟩ := p
    by_cases hk : k = id
    · simp [findStream, hk] at h
    · simp only [findStream, hk, if_neg, if_false] at h
      simp only [List.map_cons, List.mem_cons]
      rintro (h1 | h2)
      · exact hk h1.symm
      · exact ih h h2

theorem createStream_absent (s : SMState) (id : Nat)
    (hf : findStream s.streams id = none) :
    createStream s id =
      (.ok (newStream id),
        { s with streams := (id, newStream id) :: s.streams,
                 createdLog := s.createdLog ++ [id] }) := by
  simp [createStream, hf]

theorem createStream_present (s : SMState) (id : Nat) (st : StreamModel)
    (hf : findStream s.streams id = some st) :
    createStream s id = (.errStreamAlreadyExists, s) := by
  simp [createStream, hf]

theorem closeStream_absent (s : SMState) (id : Nat)
    (hf : findStream s.streams id = none) :
    closeStream s id = (.errStreamNotFound, s) := by
  simp [closeStream, hf]

theorem closeStream_present (s : SMState) (id : Nat) (st : StreamModel)
    (hf : findStream s.streams id = some st) :
    closeStream s id =
      (.ok { st with state := .sClosed, closeChClosed := true },
        { s with streams := removeKey id s.streams,
                 closedLog := s.closedLog ++ [id] }) := by
  simp [closeStream, hf]

theorem keysNodup_runRegOp (s : SMState) (op : RegOp) (h : keysNodup s) :
    keysNodup (runRegOp s op) := by
  cases op with
  | createOp id =>
    show keysNodup (createStream s id).2
    cases hf : findStream s.streams id with
    | some st => rw [createStream_present s id st hf]; exact h
    | none =>
      rw [createStream_absent s id hf]
      simp only [keysNodup, List.map_cons, List.nodup_cons]
      exact ⟨findStream_none_not_mem hf, h⟩
  | closeOp id =>
    show keysNodup (closeStream s id).2
    cases hf : findStream s.streams id with
    | none => rw [closeStream_absent s id hf]; exact h
    | some st =>
      rw [closeStream_present s id st hf]
      simp only [keysNodup]
      exact h.sublist (removeKey_keys_sublist id s.streams)

/-- The balance invariant: per id, closed-callback count plus current
presence never exceeds the created-callback count. -/
def regBalanced (s : SMState) : Prop :=
  ∀ id, s.closedLog.count id +
    (if (findStream s.streams id).isSome then 1 else 0)
      ≤ s.createdLog.count id

theorem count_singleton_ne {id id2 : Nat} (h : id ≠ id2) :
    List.count id2 [id] = 0 := by
  simp [List.count_cons]
  omega

theorem regBalanced_runRegOp (s : SMState) (op : RegOp)
    (h : regBalanced s) : regBalanced (runRegOp s op) := by
  cases op with
  | createOp id =>
    show regBalanced (createStream s id).2
    cases hf : findStream s.streams id with
    | some st => rw [createStream_present s id st hf]; exact h
    | none =>
      rw [createStream_absent s id hf]
      intro id2
      have hh := h id2
      by_cases he : id = id2
      · subst he
        simp [findStream, List.count_append, hf] at hh ⊢
        omega
      · simp only [findStream, if_neg he, List.count_append] at hh ⊢
        have := count_singleton_ne he
        omega
  | closeOp id =>
    show regBalanced (closeStream s id).2
    cases hf : findStream s.streams id with
    | none => rw [closeStream_absent s id hf]; exact h
    | some st =>
      rw [closeStream_present s id st hf]
      intro id2
      have hh := h id2
      by_cases he : id = id2
      · subst he
        simp [List.count_append, findStream_removeKey, hf] at hh ⊢
        omega
      · simp only [List.count_append, findStream_removeKey_ne he] at hh ⊢
        have := count_singleton_ne he
        omega

theorem reg_invariants (ops : List RegOp) (s : SMState)
    (h1 : regBalanced s) (h2 : keysNodup s) :
    regBalanced (ops.foldl runRegOp s) ∧ keysNodup (ops.foldl runRegOp s) := by
  induction ops generalizing s with
  | nil => exact ⟨h1, h2⟩
  | cons op rest ih =>
    exact ih _ (regBalanced_runRegOp s op h1) (keysNodup_runRegOp s op h2)

/-- **C5.** Every registry state reachable from the empty registry holds at
most one Stream per id (its key list has no duplicates) and has fired no
more close callbacks than create callbacks per id; `CreateStream` returns
a fresh stream when the id is absent and `ErrStreamAlreadyExists` (leaving
the state untouched) when present; `CloseStream` returns
`ErrStreamNotFound` when the id is absent and otherwise performs teardown
exactly once — it fires one `onStreamClosed`, after which `GetStream` no
longer finds the id and a second `CloseStream` returns
`ErrStreamNotFound`. -/
theorem streamRegistry_cases (ops : List RegOp) (s : SMState) (id : Nat) :
    keysNodup (runRegOps ops) ∧
    ((runRegOps ops).closedLog.count id
      ≤ (runRegOps ops).createdLog.count id) ∧
    (findStream s.streams id = none →
      createStream s id =
        (.ok (newStream id),
          { s with streams := (id, newStream id) :: s.streams,
                   createdLog := s.createdLog ++ [id] })) ∧
    (∀ st, findStream s.streams id = some st →
      createStream s id = (.errStreamAlreadyExists, s)) ∧
    (findStream s.streams id = none →
      closeStream s id = (.errStreamNotFound, s)) ∧
    (∀ st, findStream s.streams id = some st →
      (closeStream s id).1
          = .ok { st with state := .sClosed, closeChClosed := true } ∧
      findStream (closeStream s id).2.streams id = none ∧
      (closeStream s id).2.closedLog.count id
          = s.closedLog.count id + 1 ∧
      closeStream (closeStream s id).2 id
          = (.errStreamNotFound, (closeStream s id).2)) := by
  have hinv := reg_invariants ops emptySM
    (by intro i; simp [emptySM, findStream]) (by simp [keysNodup, emptySM])
  refine ⟨hinv.2, ?_, ?_, ?_, ?_, ?_⟩
  · have := hinv.1 id
    simp only [runRegOps]
    omega
  · intro hf
    exact createStream_absent s id hf
  · intro st hf
    exact createStream_present s id st hf
  · intro hf
    exact closeStream_absent s id hf
  · intro st hf
    have hcp := closeStream_present s id st hf
    refine ⟨by rw [hcp], ?_, ?_, ?_⟩
    · rw [hcp]
      exact findStream_removeKey id s.streams
    · rw [hcp]
      simp [List.count_append]
    · rw [hcp]
      exact closeStream_absent _ id (findStream_removeKey id s.streams)

/-- Witness for `streamRegistry_cases`: create id 3 in the empty registry,
then close it. -/
theorem streamRegistry_cases_witness :
    createStream emptySM 3
      = (.ok (newStream 3),
          { emptySM with streams := [(3, newStream 3)],
                         createdLog := [3] }) ∧
    (closeStream
        { emptySM with streams := [(3, newStream 3)], createdLog := [3] }
        3).1
      = .ok { newStream 3 with state := .sClosed, closeChClosed := true } := by
  have h1 := streamRegistry_cases [] emptySM 3
  have h2 := streamRegistry_cases []
    { emptySM with streams := [(3, newStream 3)], createdLog := [3] } 3
  exact ⟨h1.2.2.1 rfl, (h2.2.2.2.2.2 (newStream 3) rfl).1⟩

/-- **C1.** For an `OpenStream(id)` delivered with a previously unseen id,
the handler plus its forwarder goroutine hand exactly one terminating
frame for `id` to `SendFrame` — on failure exactly the `Data|Error` frame
whose payload is the error text, on success a `Data` frame with the
response followed by exactly the `Data|EndStream` frame with empty
payload — and fire the `onStreamClosed(id)` callback exactly once. -/
theorem openStream_one_terminating_frame (s : SMState) (id : Nat)
    (fw : ForwardOutcome) (hfresh : findStream s.streams id = none) :
    ((handleOpenStream s id fw).1.countP (fun f => f.isTerminating) = 1) ∧
    (∀ msg, fw = .err msg →
      (handleOpenStream s id fw).1
        = [⟨protocolVersion, .data, flagError, id, msg⟩]) ∧
    (∀ rd, fw = .ok rd →
      (handleOpenStream s id fw).1
        = [⟨protocolVersion, .data, flagNone, id, rd⟩,
           ⟨protocolVersion, .data, flagEndStream, id, []⟩]) ∧
    ((handleOpenStream s id fw).2.closedLog.count id
      = s.closedLog.count id + 1) := by
  have hcr := createStream_absent s id hfresh
  cases fw with
  | err msg =>
    refine ⟨?_, ?_, ?_, ?_⟩
    · simp [handleOpenStream, hcr, List.countP_cons, Frame.isTerminating,
        flagError]
    · intro m hm
      cases hm
      simp [handleOpenStream, hcr]
    · intro rd hrd
      cases hrd
    · simp [handleOpenStream, hcr, closeStream, findStream,
        List.count_append]
  | ok rd =>
    refine ⟨?_, ?_, ?_, ?_⟩
    · simp [handleOpenStream, hcr, List.countP_cons, Frame.isTerminating,
        flagNone, flagEndStream]
    · intro m hm
      cases hm
    · intro r hr
      cases hr
      simp [handleOpenStream, hcr]
    · simp [handleOpenStream, hcr, closeStream, findStream,
        List.count_append]

/-- Witness for `openStream_one_terminating_frame`: a fresh stream 7 whose
forwarding succeeds with body "hi". -/
theorem openStream_one_terminating_frame_witness :
    (handleOpenStream emptySM 7 (.ok [104, 105])).1.countP
        (fun f => f.isTerminating) = 1 ∧
    (handleOpenStream emptySM 7 (.ok [104, 105])).2.closedLog.count 7
      = 1 := by
  have h := openStream_one_terminating_frame emptySM 7 (.ok [104, 105]) rfl
  exact ⟨h.1, by simpa [emptySM] using h.2.2.2⟩

/-! ### Read adapter lemmas -/

/-- Termination measure for draining a stream: buffered bytes plus queued
bytes plus queued chunk count. -/
def readMeasure (st : StreamModel) : Nat :=
  st.readBuf.length + (st.queue.map List.length).sum + st.queue.length

theorem drainReads_eq (plen : Nat) (hp : 1 ≤ plen) :
    ∀ fuel st, st.closeChClosed = false → st.dataOutClosed = true →
      readMeasure st < fuel →
      drainReads plen fuel st = st.readBuf ++ st.queue.flatten := by
  intro fuel
  induction fuel with
  | zero => intro st _ _ hm; exact absurd hm (by omega)
  | succ n ih =>
    intro st hc hd hm
    by_cases hb : st.readBuf.length = 0
    · have hbe : st.readBuf = [] := List.length_eq_zero.mp hb
      cases hq : st.queue with
      | nil =>
        have hread : streamRead st plen .chanCase = (.eof, st) := by
          simp [streamRead, hb, hq, streamReadRecv, hc, hd]
        simp [drainReads, hread, hbe, hq]
      | cons d rest =>
        have hread : streamRead st plen .chanCase =
            (.bytes (d.take (min plen d.length)),
              { st with queue := rest,
                        readBuf := d.drop (min plen d.length) }) := by
          simp [streamRead, hb, hq, streamReadRecv, hc, hd]
        have hm1 : readMeasure
            { st with queue := rest,
                      readBuf := d.drop (min plen d.length) } < n := by
          simp only [readMeasure, hq, List.map_cons, List.sum_cons,
            List.length_cons] at hm
          simp only [readMeasure, List.length_drop, List.map_cons,
            List.sum_cons, List.length_cons]
          omega
        simp only [drainReads, hread]
        rw [ih _ (by simp [hc]) (by simp [hd]) hm1]
        dsimp only
        rw [hbe, ← List.append_assoc, List.take_append_drop]
        simp
    · have hread : streamRead st plen .chanCase =
          (.bytes (st.readBuf.take (min plen st.readBuf.length)),
            { st with
              readBuf := st.readBuf.drop (min plen st.readBuf.length) }) := by
        simp [streamRead, hb]
      have hm1 : readMeasure
          { st with
            readBuf := st.readBuf.drop (min plen st.readBuf.length) }
            < n := by
        simp only [readMeasure] at hm
        simp only [readMeasure, List.length_drop]
        omega
      simp only [drainReads, hread]
      rw [ih _ (by simp [hc]) (by simp [hd]) hm1]
      dsimp only
      rw [← List.append_assoc, List.take_append_drop]

/-- **C7.** The read adapter serves the single-buffer cursor first (a
partially copied chunk's tail is retained there and consumed before the
FIFO is consulted again); a dequeued chunk is copied up to the buffer
length with its tail going to the cursor; when the cursor is empty, the
FIFO is empty and either the FIFO is closed or the close signal has fired,
read returns EOF (whichever case the select commits to); and over a whole
run — FIFO closed, close signal not fired — repeated reads return exactly
the cursor followed by the FIFO chunks in order. -/
theorem streamRead_cases (st : StreamModel) (plen : Nat)
    (pick : SelectPick) (d : List Nat) (rest : List (List Nat)) :
    (st.readBuf ≠ [] →
      streamRead st plen pick =
        (.bytes (st.readBuf.take (min plen st.readBuf.length)),
          { st with
            readBuf := st.readBuf.drop (min plen st.readBuf.length) })) ∧
    (st.readBuf = [] → st.queue = d :: rest → st.closeChClosed = false →
      streamRead st plen pick =
        (.bytes (d.take (min plen d.length)),
          { st with queue := rest,
                    readBuf := d.drop (min plen d.length) })) ∧
    (st.readBuf = [] → st.queue = [] →
      (st.dataOutClosed = true ∨ st.closeChClosed = true) →
      (streamRead st plen pick).1 = .eof) ∧
    (st.closeChClosed = false → st.dataOutClosed = true → 1 ≤ plen →
      drainReads plen (readMeasure st + 1) st
        = st.readBuf ++ st.queue.flatten) := by
    refine ⟨?_, ?_, ?_, ?_⟩
    · intro hb
      have : st.readBuf.length ≠ 0 := by simpa using hb
      simp [streamRead, this]
    · intro hb hq hc
      have hl : st.readBuf.length = 0 := by simp [hb]
      simp [streamRead, hl, hq, hc, streamReadRecv]
    · intro hb hq hcl
      have hl : st.readBuf.length = 0 := by simp [hb]
      rcases hcl with h | h
      · cases hcc : st.closeChClosed <;>
          simp [streamRead, hl, hq, h, hcc, streamReadRecv] <;>
          cases pick <;> simp [streamReadRecv, hq]
      · cases hdc : st.dataOutClosed <;>
          simp [streamRead, hl, hq, h, hdc, streamReadRecv] <;>
          cases pick <;> simp [streamReadRecv, hq]
    · intro hc hd hp
      exact drainReads_eq plen hp _ st hc hd (by omega)

/-- A part_003 stream with cursor `[1, 2]`, queued chunks `[3]` and
`[4, 5]`, and its FIFO closed for teardown. -/
def drainTestStream : StreamModel :=
  { newStreamP3 9 with
    readBuf := [1, 2]
    queue := [[3], [4, 5]]
    dataOutClosed := true }

/-- A fully drained part_003 stream with its FIFO closed. -/
def drainedStream : StreamModel :=
  { newStreamP3 9 with dataOutClosed := true }

/-- Witness for `streamRead_cases`: the test stream drains to
`[1, 2, 3, 4, 5]` in order, and the drained closed stream reads EOF. -/
theorem streamRead_cases_witness :
    drainReads 2 (readMeasure drainTestStream + 1) drainTestStream
      = [1, 2, 3, 4, 5] ∧
    (streamRead drainedStream 2 .chanCase).1 = .eof := by
  have h1 := streamRead_cases drainTestStream 2 .chanCase [] []
  have h2 := streamRead_cases drainedStream 2 .chanCase [] []
  refine ⟨?_, h2.2.2.1 rfl rfl (Or.inl rfl)⟩
  have := h1.2.2.2 rfl rfl (by omega)
  simpa [drainTestStream, newStreamP3] using this

/-! ### Retry loop lemmas -/

theorem connectWithRetry_fail_step (cfg : RetryConfig) (rest : List Bool)
    (b : ℚ) (r ce : Nat)
    (hcond : ¬ (0 < cfg.maxRetries ∧ cfg.maxRetries ≤ (r : Int))) :
    connectWithRetry cfg (false :: rest) b r ce =
      ((connectWithRetry cfg rest
          (min (retryBump cfg ce b * cfg.backoffFactor) cfg.maxBackoff)
          (r + 1) (ce + 1)).1,
        retryBump cfg ce b ::
        (connectWithRetry cfg rest
          (min (retryBump cfg ce b * cfg.backoffFactor) cfg.maxBackoff)
          (r + 1) (ce + 1)).2) := by
  simp only [connectWithRetry, retryBump]
  rw [if_neg hcond]

theorem connectWithRetry_noMax (cfg : RetryConfig)
    (h : cfg.maxRetries = -1) :
    ∀ (dials : List Bool) (b : ℚ) (r ce : Nat),
      (connectWithRetry cfg dials b r ce).1 ≠ .maxRetriesExceeded := by
  intro dials
  induction dials with
  | nil => intro b r ce; simp [connectWithRetry]
  | cons dOut rest ih =>
    intro b r ce
    cases dOut with
    | true => simp [connectWithRetry]
    | false =>
      have hcond : ¬ (0 < cfg.maxRetries ∧ cfg.maxRetries ≤ (r : Int)) := by
        rw [h]; rintro ⟨h1, _⟩; omega
      rw [connectWithRetry_fail_step cfg rest b r ce hcond]
      exact ih _ _ _

theorem connectWithRetry_waits (cfg : RetryConfig)
    (h : cfg.maxRetries = -1) :
    ∀ (n k r : Nat),
      (connectWithRetry cfg (List.replicate n false)
          (specBW cfg k).1 r k).2
        = (List.range n).map (fun j => specWait cfg (k + j)) := by
  intro n
  induction n with
  | zero => intro k r; simp [connectWithRetry]
  | succ m ih =>
    intro k r
    have hcond : ¬ (0 < cfg.maxRetries ∧ cfg.maxRetries ≤ (r : Int)) := by
      rw [h]; rintro ⟨h1, _⟩; omega
    rw [List.replicate_succ,
      connectWithRetry_fail_step cfg _ _ r k hcond]
    have hb1 : retryBump cfg k (specBW cfg k).1 = specWait cfg k := by
      cases k <;> rfl
    have hb2 : min (specWait cfg k * cfg.backoffFactor) cfg.maxBackoff
        = (specBW cfg (k + 1)).1 := rfl
    dsimp only
    rw [hb1, hb2, ih (k + 1) (r + 1), List.range_succ_eq_map]
    simp only [List.map_cons, List.map_map, Nat.add_zero]
    congr 1
    apply List.map_congr_left
    intro j hj
    simp only [Function.comp]
    congr 1
    omega

theorem connectWithRetry_pendingBelow (cfg : RetryConfig) :
    ∀ (n r : Nat) (b : ℚ) (ce : Nat), ((r : Int) + n ≤ cfg.maxRetries) →
      (connectWithRetry cfg (List.replicate n false) b r ce).1
        = .pending := by
  intro n
  induction n with
  | zero => intro r b ce _; simp [connectWithRetry]
  | succ m ih =>
    intro r b ce hle
    have hcond : ¬ (0 < cfg.maxRetries ∧ cfg.maxRetries ≤ (r : Int)) := by
      rintro ⟨h1, h2⟩; omega
    rw [List.replicate_succ,
      connectWithRetry_fail_step cfg _ _ r ce hcond]
    exact ih (r + 1) _ _ (by push_cast at hle ⊢; omega)

theorem connectWithRetry_exceeded (cfg : RetryConfig) :
    ∀ (n r : Nat) (b : ℚ) (ce : Nat), 0 < cfg.maxRetries →
      cfg.maxRetries + 1 ≤ (r : Int) + n → (r : Int) ≤ cfg.maxRetries →
      (connectWithRetry cfg (List.replicate n false) b r ce).1
        = .maxRetriesExceeded := by
  intro n
  induction n with
  | zero =>
    intro r b ce h1 h2 h3
    exfalso
    push_cast at h2
    omega
  | succ m ih =>
    intro r b ce h1 h2 h3
    by_cases hc : cfg.maxRetries ≤ (r : Int)
    · rw [List.replicate_succ]
      simp only [connectWithRetry]
      rw [if_pos ⟨h1, hc⟩]
    · rw [List.replicate_succ,
        connectWithRetry_fail_step cfg _ _ r ce
          (by rintro ⟨_, hcc⟩; exact hc hcc)]
      exact ih (r + 1) _ _ h1 (by push_cast at h2 ⊢; omega) (by omega)

/-- **C2, counterexample.** With `max_retries = 1`, after 1 consecutive
dial failure — "that many consecutive failures" — `connect` has not
returned an error: it is still waiting to retry.  The error comes only
after a second consecutive failure, i.e. after `max_retries + 1` failures,
because `retries >= maxRetries` is tested before `retries++`. -/
theorem connect_maxRetries_offByOne_cex :
    (connect cexRetryCfg [false]).1 = .pending ∧
    (connect cexRetryCfg [false]).1 ≠ .maxRetriesExceeded ∧
    (connect cexRetryCfg [false, false]).1 = .maxRetriesExceeded := by
  refine ⟨by decide, by decide, by decide⟩

/-- **C2, amended.** The reconnect loop's wait durations follow the
`specWait` recurrence: the first wait is `retry_interval`; after each
failed attempt the backoff is multiplied by `backoff_factor` and capped at
`max_backoff`; from the fifth consecutive failure on, the pre-wait bump
`retryBump` additionally multiplies by `backoff_factor * 1.5` with a cap
of `2 * max_backoff`.  A successful dial returns Ok at once with no
further wait (each new `connect()`/`Reconnect()` re-enters the loop with
backoff reset to `retry_interval` and `consecutive_errors = 0`, by the
definition of `connect`).  `max_retries = -1` never yields the
max-retries error; a positive `max_retries = m` makes the loop still
pend after `m` consecutive failures and return the error after `m + 1`
consecutive failures (the initial attempt plus `m` retries). -/
theorem connector_backoff_policy (cfg : RetryConfig) :
    (specWait cfg 0 = cfg.retryInterval) ∧
    (cfg.maxRetries = -1 →
      ∀ n, (connect cfg (List.replicate n false)).2
        = (List.range n).map (specWait cfg)) ∧
    (cfg.maxRetries = -1 →
      ∀ dials b r ce,
        (connectWithRetry cfg dials b r ce).1 ≠ .maxRetriesExceeded) ∧
    (∀ m : Nat, cfg.maxRetries = (m : Int) + 1 →
      (connect cfg (List.replicate (m + 1) false)).1 = .pending ∧
      (connect cfg (List.replicate (m + 2) false)).1
        = .maxRetriesExceeded) ∧
    (∀ dials, connect cfg (true :: dials) = (.connected, [])) := by
  refine ⟨?_, ?_, ?_, ?_, ?_⟩
  · simp [specWait, specBW, retryBump]
  · intro h n
    have hw := connectWithRetry_waits cfg h n 0 0
    simp only [connect]
    rw [show cfg.retryInterval = (specBW cfg 0).1 from rfl, hw]
    apply List.map_congr_left
    intro j hj
    simp
  · intro h dials b r ce
    exact connectWithRetry_noMax cfg h dials b r ce
  · intro m hm
    constructor
    · exact connectWithRetry_pendingBelow cfg (m + 1) 0 _ 0
        (by rw [hm]; push_cast; omega)
    · exact connectWithRetry_exceeded cfg (m + 2) 0 _ 0
        (by rw [hm]; omega) (by rw [hm]; push_cast; omega)
        (by rw [hm]; omega)
  · intro dials
    simp [connect, connectWithRetry]

/-- Witness for `connector_backoff_policy`: the default configuration's
first six all-fail waits match the recurrence, and `SetMaxRetries(1)`
errors out after two consecutive failures. -/
theorem connector_backoff_policy_witness :
    (connect defaultRetryConfig (List.replicate 6 false)).2
      = (List.range 6).map (specWait defaultRetryConfig) ∧
    (connect cexRetryCfg (List.replicate 2 false)).1
      = .maxRetriesExceeded := by
  refine ⟨(connector_backoff_policy defaultRetryConfig).2.1 rfl 6, ?_⟩
  exact ((connector_backoff_policy cexRetryCfg).2.2.2.1 0 (by decide)).2

end TunnelAgent
